import Mathlib

/-!
Verification of the Nova backend (src/main.py): a small FastAPI relay with a
rule-based tool layer (weather lookup, note-taking), an in-process per-user
conversation memory, and a fallback call to a language-model API.

The embedding models the two external services (the weather lookup built on
Open-Meteo, which is pure network access, and the language-model completion
call) as function parameters; everything else — string matching, city and
note parsing, memory updates, message-window construction — is translated
directly from the Python source.  Python strings are modelled as Lean
`String`s, with slicing and scanning done on their `List Char` data;
per-user memory (`user_memory`, a dict defaulting to the empty list on
reads and on `setdefault`) is modelled as a total function from user ids to
record lists.
-/

namespace Nova

/-- Python `str.isspace` for the ASCII whitespace characters relevant to
`str.strip()` with no arguments. -/
def isPySpace (c : Char) : Bool :=
  c = ' ' || c = '\t' || c = '\n' || c = '\r' || c = '\x0b' || c = '\x0c'

/-- Drop matching characters from the right end of a character list. -/
def dropWhileR (p : Char → Bool) (l : List Char) : List Char :=
  (l.reverse.dropWhile p).reverse

/-- Python `s.strip()` on character lists: remove leading and trailing
whitespace. -/
def pyStripL (l : List Char) : List Char :=
  dropWhileR isPySpace (l.dropWhile isPySpace)

/-- Python `s.strip()`. -/
def pyStrip (s : String) : String := String.mk (pyStripL s.data)

/-- Python `s.lower()` (ASCII case folding, which covers every message the
source patterns inspect). -/
def pyLower (s : String) : String := String.mk (s.data.map Char.toLower)

/-- Python `s.find(pat)` restricted to the found case: the index of the
first occurrence of `pat` in `s`, if any. -/
def strFind (pat : List Char) : List Char → Option Nat
  | [] => if pat = [] then some 0 else none
  | c :: t =>
    if pat.isPrefixOf (c :: t) then some 0
    else (strFind pat t).map (· + 1)

/-- Python `pat in s`. -/
def strContains (s pat : List Char) : Bool := (strFind pat s).isSome

/-- The characters removed by `rstrip("? .,!")` when cleaning a parsed
city name. -/
def isCityTrail (c : Char) : Bool :=
  c = '?' || c = ' ' || c = '.' || c = ',' || c = '!'

/-- A chat message record: both the Pydantic `Message` model and the
`{"role": ..., "content": ...}` dicts stored in `user_memory` and sent to
the language-model API. -/
structure Message where
  role : String
  content : String
deriving DecidableEq, Repr

/-- The body of a `/chat` request (`ChatRequest` in the source). -/
structure ChatRequest where
  user_id : String
  message : String
  history : List Message
deriving DecidableEq, Repr

/-- The `user_memory` store: user id to ordered list of records.  The
Python dict is read with `get(user_id, [])` and written after
`setdefault(user_id, [])`, so a total function defaulting to `[]` captures
it. -/
def UserMemory : Type := String → List Message

/-- `user_memory[u].append(r)` (after `setdefault(u, [])`). -/
def appendRec (mem : UserMemory) (u : String) (r : Message) : UserMemory :=
  fun v => if v = u then mem v ++ [r] else mem v

/-- An uploaded file as the `/transcribe` endpoint sees it: filename,
content type, and the bytes returned by `file.read()`. -/
structure UploadFile where
  filename : String
  contentType : String
  content : List Nat
deriving Repr

/-- `transcribe_audio`: read the file bytes, forward filename, bytes and
content type to the transcription API (`whisper`, modelled as a function),
and return the text it produced.  Memory is not touched. -/
def transcribe_audio (whisper : String → List Nat → String → String)
    (mem : UserMemory) (file : UploadFile) : String × UserMemory :=
  (whisper file.filename file.content file.contentType, mem)

/-- The pattern searched for by the weather tool. -/
def weatherPat : String := "weather in "

/-- The reply for an empty note. -/
def emptyNoteMsg : String :=
  "Your note is empty. Try \x27Note: buy hay for the horses.\x27"

/-- Everything after the first occurrence of `c`, or `[]` when `c` is
absent (Python `s.split(c, 1)[-1]` in the guarded branch). -/
def afterFirst (c : Char) : List Char → List Char
  | [] => []
  | h :: t => if h = c then t else afterFirst c t

/-- The content parsed from a note command: after the first `:` when the
message has one, else the text after the five-character `"note "` head;
stripped either way. -/
def noteContent (message : String) : List Char :=
  if message.data.contains ':' then pyStripL (afterFirst ':' message.data)
  else pyStripL (message.data.drop 5)

/-- `maybe_handle_tools`: the rule-based tool hook.  Returns the tool reply
(or `none`) together with the memory store, which the note tool may have
extended.  `w` is `get_weather_for_city`, an external HTTP lookup modelled
as a function from city name to reply. -/
def maybe_handle_tools (w : String → String) (mem : UserMemory)
    (user_id message : String) : Option String × UserMemory :=
  let lower := pyLower message
  if strContains lower.data weatherPat.data then
    let idx := (strFind weatherPat.data lower.data).getD 0 + weatherPat.length
    let city0 := dropWhileR isCityTrail (pyStripL (message.data.drop idx))
    let city := if city0.isEmpty then "Bentonville" else String.mk city0
    (some (w city), mem)
  else if "note:".data.isPrefixOf lower.data
      || "note ".data.isPrefixOf lower.data then
    let content := noteContent message
    if content.isEmpty then (some emptyNoteMsg, mem)
    else (some ("Got it, I saved a note: " ++ String.mk content),
          appendRec mem user_id ⟨"system", "[NOTE] " ++ String.mk content⟩)
  else (none, mem)

/-- The system prompt sent on every language-model call. -/
def system_prompt : String :=
  "You are Nova, a friendly, concise personal AI assistant. " ++
  "You remember context from the conversation. " ++
  "If the user asks about weather, notes, or reminders, you can reference what I\x27ve already done, " ++
  "but avoid making up actions I didn\x27t perform."

/-- The fixed reply used when the language-model call raises. -/
def apology : String :=
  "Sorry, I had an issue talking to my brain (OpenAI). Try again in a moment."

/-- Python `l[-n:]`: the at-most-`n` most recent elements. -/
def lastN (n : Nat) (l : List α) : List α := l.drop (l.length - n)

/-- The message list built for the language-model call: the system prompt,
the last 10 records of the stored memory, the last 10 records of the
request history, then the stripped user message. -/
def build_messages (mem : UserMemory) (req : ChatRequest) : List Message :=
  ⟨"system", system_prompt⟩ ::
    (lastN 10 (mem req.user_id) ++
      (lastN 10 req.history ++ [⟨"user", pyStrip req.message⟩]))

/-- The observable outcome of one `/chat` request: the JSON reply, the
memory store afterwards, and the message list forwarded to the
language-model API (`none` when it was never invoked). -/
structure ChatResult where
  reply : String
  memory : UserMemory
  llmInput : Option (List Message)

/-- The reply produced by the guarded language-model call: the returned
content stripped, as in `completion.choices[0].message.content.strip()`,
or the fixed apology when the call raises. -/
def chatReply (llm : List Message → Except Unit String)
    (messages : List Message) : String :=
  match llm messages with
  | .ok s => pyStrip s
  | .error _ => apology

/-- The `/chat` endpoint.  `w` is the weather lookup and `llm` the
language-model completion call, which either returns the reply content or
raises (`Except.error`). -/
def chat (w : String → String) (llm : List Message → Except Unit String)
    (mem : UserMemory) (req : ChatRequest) : ChatResult :=
  let user_message := pyStrip req.message
  match maybe_handle_tools w mem req.user_id user_message with
  | (some tool_reply, mem1) =>
    { reply := tool_reply
      memory := appendRec (appendRec mem1 req.user_id ⟨"user", user_message⟩)
        req.user_id ⟨"assistant", tool_reply⟩
      llmInput := none }
  | (none, mem1) =>
    let messages := build_messages mem1 req
    let reply := chatReply llm messages
    { reply := reply
      memory := appendRec (appendRec mem1 req.user_id ⟨"user", user_message⟩)
        req.user_id ⟨"assistant", reply⟩
      llmInput := some messages }

/-- The `/` health-check endpoint: a constant message, memory untouched. -/
def root (mem : UserMemory) : String × UserMemory :=
  ("Nova backend is running!", mem)

/-- The tool-pattern test of claim C1, matching the two guards of
`maybe_handle_tools`. -/
def isToolPattern (m : String) : Bool :=
  strContains (pyLower m).data weatherPat.data
  || ("note:".data.isPrefixOf (pyLower m).data
      || "note ".data.isPrefixOf (pyLower m).data)

/-! ### Helper lemmas -/

theorem lastN_length_le (n : Nat) (l : List α) : (lastN n l).length ≤ n := by
  simp only [lastN, List.length_drop]
  omega

theorem appendRec_append (mem : UserMemory) (v u : String) (r : Message) :
    ∃ t, appendRec mem u r v = mem v ++ t := by
  by_cases h : v = u
  · exact ⟨[r], by simp [appendRec, h]⟩
  · exact ⟨[], by simp [appendRec, h]⟩

theorem appendRec_frame (mem : UserMemory) (v u : String) (r : Message)
    (h : v ≠ u) : appendRec mem u r v = mem v := by
  simp [appendRec, h]

theorem mht_snd_append (w : String → String) (mem : UserMemory)
    (u m v : String) : ∃ t, (maybe_handle_tools w mem u m).2 v = mem v ++ t := by
  simp only [maybe_handle_tools]
  split
  · exact ⟨[], by simp⟩
  · split
    · split
      · exact ⟨[], by simp⟩
      · exact appendRec_append mem v u _
    · exact ⟨[], by simp⟩

theorem mht_snd_frame (w : String → String) (mem : UserMemory)
    (u m v : String) (h : v ≠ u) :
    (maybe_handle_tools w mem u m).2 v = mem v := by
  simp only [maybe_handle_tools]
  split
  · rfl
  · split
    · split
      · rfl
      · exact appendRec_frame mem v u _ h
    · rfl

theorem mht_none_eq {w : String → String} {mem : UserMemory} {u m : String}
    (h : (maybe_handle_tools w mem u m).1 = none) :
    maybe_handle_tools w mem u m = (none, mem) := by
  revert h
  simp only [maybe_handle_tools]
  split
  · intro h; simp at h
  · split
    · split
      · intro h; simp at h
      · intro h; simp at h
    · intro _; rfl

theorem mht_pattern_isSome (w : String → String) (mem : UserMemory)
    (u : String) {m : String} (h : isToolPattern m = true) :
    ((maybe_handle_tools w mem u m).1).isSome = true := by
  unfold isToolPattern at h
  simp only [maybe_handle_tools]
  split
  · rfl
  · split
    · split
      · rfl
      · rfl
    · rename_i h1 h2
      exfalso
      rcases (Bool.or_eq_true _ _).mp h with h | h
      · exact h1 h
      · exact h2 h

theorem chat_tool {w : String → String} {llm : List Message → Except Unit String}
    {mem mem1 : UserMemory} {req : ChatRequest} {r : String}
    (h : maybe_handle_tools w mem req.user_id (pyStrip req.message) = (some r, mem1)) :
    chat w llm mem req =
      { reply := r
        memory := appendRec (appendRec mem1 req.user_id ⟨"user", pyStrip req.message⟩)
          req.user_id ⟨"assistant", r⟩
        llmInput := none } := by
  simp only [chat]
  rw [h]

theorem chat_fallback {w : String → String} {llm : List Message → Except Unit String}
    {mem : UserMemory} {req : ChatRequest}
    (h : maybe_handle_tools w mem req.user_id (pyStrip req.message) = (none, mem)) :
    chat w llm mem req =
      { reply := chatReply llm (build_messages mem req)
        memory := appendRec (appendRec mem req.user_id ⟨"user", pyStrip req.message⟩)
          req.user_id ⟨"assistant", chatReply llm (build_messages mem req)⟩
        llmInput := some (build_messages mem req) } := by
  simp only [chat]
  rw [h]

/-! ### Claim theorems -/

/-- C1: every `/chat` request whose stripped message matches a tool pattern
(the lowercased message contains "weather in ", or starts with "note:" or
"note ") gets the tool's reply back, and the language-model API is never
invoked for that request. -/
theorem c1_tool_short_circuit (w : String → String)
    (llm : List Message → Except Unit String) (mem : UserMemory)
    (req : ChatRequest) (h : isToolPattern (pyStrip req.message) = true) :
    (chat w llm mem req).llmInput = none ∧
    ∃ r mem1,
      maybe_handle_tools w mem req.user_id (pyStrip req.message) = (some r, mem1) ∧
      (chat w llm mem req).reply = r := by
  have hs := mht_pattern_isSome w mem req.user_id h
  obtain ⟨r, hr⟩ := Option.isSome_iff_exists.mp hs
  have hpair : maybe_handle_tools w mem req.user_id (pyStrip req.message) =
      (some r, (maybe_handle_tools w mem req.user_id (pyStrip req.message)).2) := by
    rw [← hr]
  rw [chat_tool hpair]
  exact ⟨rfl, r, _, hpair, rfl⟩

/-- Witness for C1 at the request "weather in Rome". -/
theorem c1_witness :
    (chat (fun c => "W " ++ c) (fun _ => .ok "x") (fun _ => [])
        ⟨"u", "weather in Rome", []⟩).llmInput = none ∧
    ∃ r mem1,
      maybe_handle_tools (fun c => "W " ++ c) (fun _ => []) "u"
          (pyStrip "weather in Rome") = (some r, mem1) ∧
      (chat (fun c => "W " ++ c) (fun _ => .ok "x") (fun _ => [])
          ⟨"u", "weather in Rome", []⟩).reply = r :=
  c1_tool_short_circuit _ _ _ _ (by decide)

/-- C2: on the fallback path the list forwarded to the language model is
exactly one system prompt, then the last up-to-10 stored memory records,
then the last up-to-10 request-history records, then the current user
message — at most 22 messages. -/
theorem c2_fallback_window (w : String → String)
    (llm : List Message → Except Unit String) (mem : UserMemory)
    (req : ChatRequest)
    (h : (maybe_handle_tools w mem req.user_id (pyStrip req.message)).1 = none) :
    (chat w llm mem req).llmInput = some (build_messages mem req) ∧
    build_messages mem req =
      ⟨"system", system_prompt⟩ ::
        (lastN 10 (mem req.user_id) ++
          (lastN 10 req.history ++ [⟨"user", pyStrip req.message⟩])) ∧
    (build_messages mem req).length ≤ 22 := by
  refine ⟨?_, rfl, ?_⟩
  · rw [chat_fallback (mht_none_eq h)]
  · have h1 := lastN_length_le 10 (mem req.user_id)
    have h2 := lastN_length_le 10 req.history
    simp only [build_messages, List.length_cons, List.length_append,
      List.length_nil]
    omega

/-- Witness for C2 at the request "hello". -/
theorem c2_witness :
    (chat (fun c => "W " ++ c) (fun _ => .ok "x") (fun _ => [])
        ⟨"u", "hello", []⟩).llmInput =
      some (build_messages (fun _ => []) ⟨"u", "hello", []⟩) ∧
    build_messages (fun _ => []) ⟨"u", "hello", []⟩ =
      ⟨"system", system_prompt⟩ ::
        (lastN 10 ((fun _ => ([] : List Message)) "u") ++
          (lastN 10 ([] : List Message) ++ [⟨"user", pyStrip "hello"⟩])) ∧
    (build_messages (fun _ => []) ⟨"u", "hello", []⟩).length ≤ 22 :=
  c2_fallback_window _ _ _ _ (by decide)

/-- C3: on the fallback path the caller's memory afterwards is the old list
with exactly the stripped user message (role "user") and then the reply
(role "assistant") appended. -/
theorem c3_fallback_appends_pair (w : String → String)
    (llm : List Message → Except Unit String) (mem : UserMemory)
    (req : ChatRequest)
    (h : (maybe_handle_tools w mem req.user_id (pyStrip req.message)).1 = none) :
    (chat w llm mem req).memory req.user_id =
      mem req.user_id ++
        [⟨"user", pyStrip req.message⟩,
         ⟨"assistant", (chat w llm mem req).reply⟩] := by
  rw [chat_fallback (mht_none_eq h)]
  simp [appendRec]

/-- Witness for C3 at the request "hello". -/
theorem c3_witness :
    (chat (fun c => "W " ++ c) (fun _ => .ok " hi ") (fun _ => [])
        ⟨"u", "hello", []⟩).memory "u" =
      (fun _ => ([] : List Message)) "u" ++
        [⟨"user", pyStrip "hello"⟩,
         ⟨"assistant", (chat (fun c => "W " ++ c) (fun _ => .ok " hi ")
            (fun _ => []) ⟨"u", "hello", []⟩).reply⟩] :=
  c3_fallback_appends_pair _ _ _ _ (by decide)

/-- C4: the windowed read `lastN 10` is a contiguous suffix of the stored
list of length `min 10 length`, and equals the whole list when it has at
most 10 records. -/
theorem c4_window_is_recent_suffix (l : List Message) :
    (∃ s, s ++ lastN 10 l = l) ∧
    (lastN 10 l).length = min 10 l.length ∧
    (l.length ≤ 10 → lastN 10 l = l) := by
  refine ⟨⟨l.take (l.length - 10), List.take_append_drop _ _⟩, ?_, ?_⟩
  · simp only [lastN, List.length_drop]
    omega
  · intro h
    simp [lastN, Nat.sub_eq_zero_of_le h]

/-- Witness for C4 at a one-record list. -/
theorem c4_witness :
    lastN 10 [Message.mk "user" "a"] = [Message.mk "user" "a"] :=
  (c4_window_is_recent_suffix [Message.mk "user" "a"]).2.2 (by decide)

/-- C5: memory is append-only: `/chat` on any path only appends to each
user's stored list, and `/transcribe` and the health check leave every
stored list unchanged — every stored list is an initial segment of its new
value after any operation. -/
theorem c5_memory_append_only (w : String → String)
    (llm : List Message → Except Unit String) (mem : UserMemory)
    (req : ChatRequest) (whisper : String → List Nat → String → String)
    (file : UploadFile) (u : String) :
    (∃ t, (chat w llm mem req).memory u = mem u ++ t) ∧
    (transcribe_audio whisper mem file).2 u = mem u ∧
    (root mem).2 u = mem u := by
  refine ⟨?_, rfl, rfl⟩
  cases ho : (maybe_handle_tools w mem req.user_id (pyStrip req.message)).1 with
  | some r =>
    have hpair : maybe_handle_tools w mem req.user_id (pyStrip req.message) =
        (some r, (maybe_handle_tools w mem req.user_id (pyStrip req.message)).2) := by
      rw [← ho]
    rw [chat_tool hpair]
    obtain ⟨t0, ht0⟩ := mht_snd_append w mem req.user_id (pyStrip req.message) u
    obtain ⟨t1, ht1⟩ := appendRec_append
      ((maybe_handle_tools w mem req.user_id (pyStrip req.message)).2) u
      req.user_id (⟨"user", pyStrip req.message⟩ : Message)
    obtain ⟨t2, ht2⟩ := appendRec_append
      (appendRec ((maybe_handle_tools w mem req.user_id (pyStrip req.message)).2)
        req.user_id (⟨"user", pyStrip req.message⟩ : Message)) u
      req.user_id (⟨"assistant", r⟩ : Message)
    refine ⟨t0 ++ (t1 ++ t2), ?_⟩
    show appendRec
        (appendRec ((maybe_handle_tools w mem req.user_id (pyStrip req.message)).2)
          req.user_id ⟨"user", pyStrip req.message⟩)
        req.user_id ⟨"assistant", r⟩ u = mem u ++ (t0 ++ (t1 ++ t2))
    rw [ht2, ht1, ht0]
    simp
  | none =>
    rw [chat_fallback (mht_none_eq ho)]
    obtain ⟨t1, ht1⟩ := appendRec_append mem u
      req.user_id (⟨"user", pyStrip req.message⟩ : Message)
    obtain ⟨t2, ht2⟩ := appendRec_append
      (appendRec mem req.user_id (⟨"user", pyStrip req.message⟩ : Message)) u
      req.user_id (⟨"assistant", chatReply llm (build_messages mem req)⟩ : Message)
    refine ⟨t1 ++ t2, ?_⟩
    show appendRec
        (appendRec mem req.user_id ⟨"user", pyStrip req.message⟩)
        req.user_id ⟨"assistant", chatReply llm (build_messages mem req)⟩ u =
      mem u ++ (t1 ++ t2)
    rw [ht2, ht1]
    simp

/-- C6: a `/chat` request leaves every other user's memory unchanged. -/
theorem c6_other_users_unchanged (w : String → String)
    (llm : List Message → Except Unit String) (mem : UserMemory)
    (req : ChatRequest) (v : String) (h : v ≠ req.user_id) :
    (chat w llm mem req).memory v = mem v := by
  cases ho : (maybe_handle_tools w mem req.user_id (pyStrip req.message)).1 with
  | some r =>
    have hpair : maybe_handle_tools w mem req.user_id (pyStrip req.message) =
        (some r, (maybe_handle_tools w mem req.user_id (pyStrip req.message)).2) := by
      rw [← ho]
    rw [chat_tool hpair]
    show appendRec _ _ _ v = mem v
    rw [appendRec_frame _ v _ _ h, appendRec_frame _ v _ _ h]
    exact mht_snd_frame w mem req.user_id (pyStrip req.message) v h
  | none =>
    rw [chat_fallback (mht_none_eq ho)]
    show appendRec _ _ _ v = mem v
    rw [appendRec_frame _ v _ _ h, appendRec_frame _ v _ _ h]

/-- Witness for C6: user "v" is untouched by user "u" chatting. -/
theorem c6_witness :
    (chat (fun c => "W " ++ c) (fun _ => .ok "x") (fun _ => [])
        ⟨"u", "hello", []⟩).memory "v" = (fun _ => ([] : List Message)) "v" :=
  c6_other_users_unchanged _ _ _ _ _ (by decide)

/-- C7: `/transcribe` forwards the uploaded file's name, bytes and content
type to the transcription API and returns exactly the text that API
produced, leaving per-user memory unchanged. -/
theorem c7_transcribe_forwards (whisper : String → List Nat → String → String)
    (mem : UserMemory) (file : UploadFile) :
    (transcribe_audio whisper mem file).1 =
      whisper file.filename file.content file.contentType ∧
    ∀ u, (transcribe_audio whisper mem file).2 u = mem u :=
  ⟨rfl, fun _ => rfl⟩

/-- C8: when the language-model call raises, `/chat` returns the fixed
apology string and appends it to the caller's memory as the assistant
record, exactly as a successful reply would be. -/
theorem c8_llm_exception_apology (w : String → String)
    (llm : List Message → Except Unit String) (mem : UserMemory)
    (req : ChatRequest)
    (h1 : (maybe_handle_tools w mem req.user_id (pyStrip req.message)).1 = none)
    (h2 : llm (build_messages mem req) = .error ()) :
    (chat w llm mem req).reply = apology ∧
    (chat w llm mem req).memory req.user_id =
      mem req.user_id ++
        [⟨"user", pyStrip req.message⟩, ⟨"assistant", apology⟩] := by
  have hrep : chatReply llm (build_messages mem req) = apology := by
    unfold chatReply
    rw [h2]
  rw [chat_fallback (mht_none_eq h1)]
  exact ⟨hrep, by simp [appendRec, hrep]⟩

/-- Witness for C8: a failing language-model call on the request "hello". -/
theorem c8_witness :
    (chat (fun c => "W " ++ c) (fun _ => .error ()) (fun _ => [])
        ⟨"u", "hello", []⟩).reply = apology ∧
    (chat (fun c => "W " ++ c) (fun _ => .error ()) (fun _ => [])
        ⟨"u", "hello", []⟩).memory "u" =
      (fun _ => ([] : List Message)) "u" ++
        [⟨"user", pyStrip "hello"⟩, ⟨"assistant", apology⟩] :=
  c8_llm_exception_apology _ _ _ _ (by decide) rfl

theorem mht_note {m : String} (w : String → String) (mem : UserMemory)
    (u : String)
    (hw : strContains (pyLower m).data weatherPat.data = false)
    (hn : ("note:".data.isPrefixOf (pyLower m).data
        || "note ".data.isPrefixOf (pyLower m).data) = true) :
    maybe_handle_tools w mem u m =
      if (noteContent m).isEmpty then (some emptyNoteMsg, mem)
      else (some ("Got it, I saved a note: " ++ String.mk (noteContent m)),
            appendRec mem u ⟨"system", "[NOTE] " ++ String.mk (noteContent m)⟩) := by
  simp [maybe_handle_tools, hw, hn]

/-- C9 (amended: the message must also not match the weather pattern, which
takes priority): for a note command, an empty parsed content yields the
fixed empty-note reply and memory grows only by the user/assistant pair;
a non-empty content grows memory by exactly the "[NOTE]" system record,
the user message, and the confirmation reply, in that order. -/
theorem c9_note_commands (w : String → String)
    (llm : List Message → Except Unit String) (mem : UserMemory)
    (req : ChatRequest)
    (hw : strContains (pyLower (pyStrip req.message)).data weatherPat.data = false)
    (hn : ("note:".data.isPrefixOf (pyLower (pyStrip req.message)).data
        || "note ".data.isPrefixOf (pyLower (pyStrip req.message)).data) = true) :
    ((noteContent (pyStrip req.message)).isEmpty = true →
      (chat w llm mem req).reply = emptyNoteMsg ∧
      (chat w llm mem req).memory req.user_id =
        mem req.user_id ++
          [⟨"user", pyStrip req.message⟩, ⟨"assistant", emptyNoteMsg⟩]) ∧
    ((noteContent (pyStrip req.message)).isEmpty = false →
      (chat w llm mem req).memory req.user_id =
        mem req.user_id ++
          [⟨"system", "[NOTE] " ++ String.mk (noteContent (pyStrip req.message))⟩,
           ⟨"user", pyStrip req.message⟩,
           ⟨"assistant", "Got it, I saved a note: "
              ++ String.mk (noteContent (pyStrip req.message))⟩]) := by
  have hm := mht_note w mem req.user_id hw hn
  constructor
  · intro he
    rw [if_pos he] at hm
    rw [chat_tool hm]
    exact ⟨rfl, by simp [appendRec]⟩
  · intro he
    rw [if_neg (by simp [he])] at hm
    rw [chat_tool hm]
    simp [appendRec]

/-- Counterexample to C9 as stated: "note weather in Paris" starts with
"note " and parses to the non-empty content "weather in Paris", yet the
weather tool takes priority, so memory grows by only two records and no
"[NOTE]" system record is stored. -/
theorem c9_counterexample :
    ("note ".data.isPrefixOf (pyLower (pyStrip "note weather in Paris")).data
      = true) ∧
    ((noteContent (pyStrip "note weather in Paris")).isEmpty = false) ∧
    (chat (fun c => "W " ++ c) (fun _ => .ok "x") (fun _ => [])
        ⟨"u", "note weather in Paris", []⟩).memory "u" =
      [⟨"user", "note weather in Paris"⟩, ⟨"assistant", "W Paris"⟩] ∧
    ((chat (fun c => "W " ++ c) (fun _ => .ok "x") (fun _ => [])
        ⟨"u", "note weather in Paris", []⟩).memory "u").length ≠ 3 ∧
    ∀ r ∈ (chat (fun c => "W " ++ c) (fun _ => .ok "x") (fun _ => [])
        ⟨"u", "note weather in Paris", []⟩).memory "u", r.role ≠ "system" := by
  decide

/-- Witness for the amended C9 at the request "Note: buy hay". -/
theorem c9_witness :
    (chat (fun c => "W " ++ c) (fun _ => .ok "x") (fun _ => [])
        ⟨"u", "Note: buy hay", []⟩).memory "u" =
      (fun _ => ([] : List Message)) "u" ++
        [⟨"system", "[NOTE] " ++ String.mk (noteContent (pyStrip "Note: buy hay"))⟩,
         ⟨"user", pyStrip "Note: buy hay"⟩,
         ⟨"assistant", "Got it, I saved a note: "
            ++ String.mk (noteContent (pyStrip "Note: buy hay"))⟩] :=
  (c9_note_commands _ _ _ _ (by decide) (by decide)).2 (by decide)

/-- C10: for a message containing "weather in " (case-insensitive), the
city handed to the weather lookup is the original-case text after the
first occurrence of the pattern, whitespace-stripped and with trailing
"? .,!" characters removed, defaulting to "Bentonville" when that result
is empty; memory is not touched by the weather tool. -/
theorem c10_weather_city (w : String → String) (mem : UserMemory)
    (u m : String)
    (h : strContains (pyLower m).data weatherPat.data = true) :
    maybe_handle_tools w mem u m =
      (some (w (
        if (dropWhileR isCityTrail (pyStripL (m.data.drop
              ((strFind weatherPat.data (pyLower m).data).getD 0
                + weatherPat.length)))).isEmpty
        then "Bentonville"
        else String.mk (dropWhileR isCityTrail (pyStripL (m.data.drop
              ((strFind weatherPat.data (pyLower m).data).getD 0
                + weatherPat.length)))))), mem) := by
  simp [maybe_handle_tools, h]

/-- Witness for C10: mixed case, leading context, trailing punctuation. -/
theorem c10_witness :
    (maybe_handle_tools (fun c => "W " ++ c) (fun _ => ([] : List Message)) "u"
      "Tell me the Weather in Boston?!").1 = some "W Boston" := by
  have h := c10_weather_city (fun c => "W " ++ c) (fun _ => []) "u"
    "Tell me the Weather in Boston?!" (by decide)
  rw [h]
  decide

end Nova
